import Mathlib

/-!
Verification of the concrete curing-time model (`concrete.py`) against its
specification.  The two Python classes `Concrete2004` and `Concrete2023` are
shallowly embedded: real-number formulas become functions on `ℝ`, dictionary
lookups become `Option`-valued tables, and code paths that can raise become
`Except PyError` values.
-/

/-- Error outcomes observable from the Python source: a failed dictionary
lookup (`KeyError`), the explicit temperature-range `Exception` raised by
`get_t_T`, and evaluation of an undefined name (`NameError`). -/
inductive PyError where
  | keyError : PyError
  | invalidTemperatureRange : PyError
  | nameError : PyError
deriving DecidableEq

/-- Mutable input fields of the `Concrete2004` class: exactly the three
attributes assigned in `__init__` (source lines 17–22); the class stores no
other state. -/
structure Concrete2004 where
  strength_class : String
  cement_class : String
  curing_temperature : ℝ

namespace Concrete2004

/-- Strength-class table `Concrete2004.F_CK_DICT` (source lines 9–13). -/
noncomputable def F_CK_DICT : String → Option ℝ
  | "C12/15" => some 12.0
  | "C16/20" => some 16.0
  | "C20/25" => some 20.0
  | "C25/30" => some 25.0
  | "C30/37" => some 30.0
  | "C35/45" => some 35.0
  | "C40/50" => some 40.0
  | "C45/55" => some 45.0
  | "C50/60" => some 50.0
  | "C55/67" => some 55.0
  | "C60/75" => some 60.0
  | "C70/85" => some 70.0
  | "C80/95" => some 80.0
  | "C90/105" => some 90.0
  | _ => none

/-- Cement-class table `Concrete2004.S_DICT` (source line 15). -/
noncomputable def S_DICT : String → Option ℝ
  | "S" => some 0.38
  | "N" => some 0.25
  | "R" => some 0.20
  | _ => none

/-- `get_fcm` (source line 55): `f_ck + 8.0`. -/
noncomputable def get_fcm (f_ck : ℝ) : ℝ := f_ck + 8.0

/-- `get_Ecm` (source line 69): `22e3*(f_cm/10)**0.3`. -/
noncomputable def get_Ecm (f_cm : ℝ) : ℝ := 22000.0 * (f_cm / 10.0) ^ (0.3 : ℝ)

/-- `get_fcm_t` (source line 84): `beta_cc_t*f_cm`. -/
noncomputable def get_fcm_t (beta_cc_t f_cm : ℝ) : ℝ := beta_cc_t * f_cm

/-- `get_Ecm_t` (source line 99): `beta_cc_t**(0.3)*E_cm`. -/
noncomputable def get_Ecm_t (beta_cc_t E_cm : ℝ) : ℝ := beta_cc_t ^ (0.3 : ℝ) * E_cm

/-- `get_fck_t` (source line 114): `f_cm_t-8.0`. -/
noncomputable def get_fck_t (f_cm_t : ℝ) : ℝ := f_cm_t - 8.0

/-- `get_betacc_t` (source lines 116–128): the body
`t = minimum(t, 28.0); return exp(s*(1.0-(28.0/t)**0.5))` evaluates the
undefined names `minimum` and `exp` (the module imports only `numpy as np`,
and neither name is defined locally, in the module, or as a builtin), so
every call raises `NameError` before any arithmetic — the same defect family
as the bare `T` at line 153. -/
noncomputable def get_betacc_t (_s _t : ℝ) : Except PyError ℝ :=
  .error .nameError

/-- Modelled from the spec: the 2004 development-coefficient formula
`beta_cc(s, t) = exp(s * (1 - sqrt(28/t')))` with `t' = min(t, 28)`
(spec §4.3, where `x**0.5` is `sqrt x`).  The source method `get_betacc_t`
itself raises `NameError` on every call (see above), so the formula the spec
states for it is embedded here from the spec's words. -/
noncomputable def get_betacc_t_spec (s t : ℝ) : ℝ :=
  Real.exp (s * (1.0 - (28.0 / min t 28.0) ^ (0.5 : ℝ)))

/-- `get_s` (source lines 157–169): the body
`return self.S_C_DICT[cement_class]` evaluates the name `self`, which is not
a parameter of this `@staticmethod`, so every call raises `NameError`
(moreover the 2004 class's table is named `S_DICT`, not `S_C_DICT`). -/
noncomputable def get_s (_cement_class : String) : Except PyError ℝ :=
  .error .nameError

/-- `get_t_T` (source lines 130–155), the variable-temperature maturity sum.
The guard mirrors `min(T_dt) <= 0.0 or max(T_dt) > 80.0`.  With the linear
activation-energy option enabled (the default), line 153 evaluates
`1470*np.maximum(20.0-T, 0.0)` where the name `T` is undefined (the parameter
is `T_dt`), so the call raises `NameError`; with the option disabled the sum
uses the constant activation energy `E = 33500`. -/
noncomputable def get_t_T (dt T_dt : List ℝ) (use_linear_activation_energy : Bool) :
    Except PyError ℝ :=
  if (∃ x ∈ T_dt, x ≤ 0.0) ∨ (∃ x ∈ T_dt, 80.0 < x) then
    .error .invalidTemperatureRange
  else if use_linear_activation_energy then
    .error .nameError
  else
    .ok (((dt.zip T_dt).map (fun p =>
      p.1 * Real.exp (33500.0 / 8.314 * (1.0 / 293.0 - 1.0 / (273.0 + p.2))))).sum)

/-- Modelled from the spec: the per-interval activation-energy form of the
2004 variable-temperature maturity sum.  The source's line 153 references the
undefined name `T`; the spec directs implementers to use the per-interval
temperature `T_dt` there, which is what this definition does. -/
noncomputable def get_t_T_perInterval (dt T_dt : List ℝ)
    (use_linear_activation_energy : Bool) : Except PyError ℝ :=
  if (∃ x ∈ T_dt, x ≤ 0.0) ∨ (∃ x ∈ T_dt, 80.0 < x) then
    .error .invalidTemperatureRange
  else
    .ok (((dt.zip T_dt).map (fun p =>
      p.1 * Real.exp ((33500.0 +
        (if use_linear_activation_energy then 1470.0 * max (20.0 - p.2) 0.0 else 0.0)) /
        8.314 * (1.0 / 293.0 - 1.0 / (273.0 + p.2))))).sum)

/-- Property `f_ck` (source line 27): `self.F_CK_DICT[self.strength_class]`. -/
noncomputable def f_ck_prop (self : Concrete2004) : Except PyError ℝ :=
  match F_CK_DICT self.strength_class with
  | some v => .ok v
  | none => .error .keyError

/-- Property `f_cm` (source line 32): `self.get_fcm(self.f_ck)`. -/
noncomputable def f_cm_prop (self : Concrete2004) : Except PyError ℝ :=
  (f_ck_prop self).map get_fcm

/-- Property `E_cm` (source line 37): `self.get_Ecm(self.f_ck)` — the value
passed to `get_Ecm` is `f_ck`, although `get_Ecm` documents its parameter as
the mean strength `f_cm`. -/
noncomputable def E_cm_prop (self : Concrete2004) : Except PyError ℝ :=
  (f_ck_prop self).map get_Ecm

end Concrete2004

/-- Mutable input fields of the `Concrete2023` class: exactly the five
attributes assigned in `__init__` (source lines 212–220); the class stores no
other state. -/
structure Concrete2023 where
  strength_class : String
  strength_development_class : String
  t_ref : ℝ
  age : ℝ
  curing_temperature : ℝ

namespace Concrete2023

/-- Strength-class table `Concrete2023.F_CK_DICT` (source lines 202–206). -/
noncomputable def F_CK_DICT : String → Option ℝ
  | "C12/15" => some 12.0
  | "C16/20" => some 16.0
  | "C20/25" => some 20.0
  | "C25/30" => some 25.0
  | "C30/37" => some 30.0
  | "C35/45" => some 35.0
  | "C40/50" => some 40.0
  | "C45/55" => some 45.0
  | "C50/60" => some 50.0
  | "C55/67" => some 55.0
  | "C60/75" => some 60.0
  | "C70/85" => some 70.0
  | "C80/95" => some 80.0
  | "C90/105" => some 90.0
  | "C100/115" => some 100.0
  | _ => none

/-- Development-class table `Concrete2023.S_C_DICT` (source lines 208–210):
each class maps to its three strength-bin coefficients. -/
noncomputable def S_C_DICT : String → Option (ℝ × ℝ × ℝ)
  | "CS" => some (0.6, 0.5, 0.4)
  | "CN" => some (0.5, 0.4, 0.3)
  | "CR" => some (0.3, 0.2, 0.1)
  | _ => none

/-- `get_fcm` (source line 284): `f_ck + 8.0`. -/
noncomputable def get_fcm (f_ck : ℝ) : ℝ := f_ck + 8.0

/-- `get_Ecm` (source line 300): `k_E*f_cm**(1/3)`; the Python default
`k_E = 9500` is supplied explicitly at call sites. -/
noncomputable def get_Ecm (f_cm k_E : ℝ) : ℝ := k_E * f_cm ^ ((1 : ℝ) / 3)

/-- `get_fcm_t` (source line 315): `beta_cc_t*f_cm`. -/
noncomputable def get_fcm_t (beta_cc_t f_cm : ℝ) : ℝ := beta_cc_t * f_cm

/-- `get_Ecm_t` (source line 330): `beta_cc_t**(1/3)*E_cm`. -/
noncomputable def get_Ecm_t (beta_cc_t E_cm : ℝ) : ℝ := beta_cc_t ^ ((1 : ℝ) / 3) * E_cm

/-- `get_fck_t` (source line 345): `f_cm_t-8.0`. -/
noncomputable def get_fck_t (f_cm_t : ℝ) : ℝ := f_cm_t - 8.0

/-- `get_betacc_t` (source lines 362–363):
`t = np.minimum(t, t_ref); return np.exp(s_C*(1.0-np.sqrt(t_ref/t))*np.sqrt(28.0/t_ref))`. -/
noncomputable def get_betacc_t (s_C t t_ref : ℝ) : ℝ :=
  Real.exp (s_C * (1.0 - Real.sqrt (t_ref / min t t_ref)) * Real.sqrt (28.0 / t_ref))

/-- `get_t_T` (source lines 382–391), the constant-temperature maturity
formula.  The temperature guard `not (0.0 < T <= 80.0)` runs before any
computation; the age `t` is never validated. -/
noncomputable def get_t_T (t T : ℝ) (use_linear_activation_energy : Bool) :
    Except PyError ℝ :=
  if 0.0 < T ∧ T ≤ 80.0 then
    .ok (t * Real.exp ((33500.0 +
      (if use_linear_activation_energy then 1470.0 * max (20.0 - T) 0.0 else 0.0)) /
      8.314 * (1.0 / 293.0 - 1.0 / (273.0 + T))))
  else
    .error .invalidTemperatureRange

/-- `get_sC` (source lines 408–413): bin selection on `f_ck`, then lookup in
`S_C_DICT` (a missing class raises `KeyError`). -/
noncomputable def get_sC (f_ck : ℝ) (strength_development_class : String) :
    Except PyError ℝ :=
  if f_ck ≤ 35.0 then
    match S_C_DICT strength_development_class with
    | some v => .ok v.1
    | none => .error .keyError
  else if f_ck < 60.0 then
    match S_C_DICT strength_development_class with
    | some v => .ok v.2.1
    | none => .error .keyError
  else
    match S_C_DICT strength_development_class with
    | some v => .ok v.2.2
    | none => .error .keyError

/-- Property `f_ck` (source line 227): `self.F_CK_DICT[self.strength_class]`. -/
noncomputable def f_ck_prop (self : Concrete2023) : Except PyError ℝ :=
  match F_CK_DICT self.strength_class with
  | some v => .ok v
  | none => .error .keyError

/-- Property `f_cm` (source line 232): `self.get_fcm(self.f_ck)`. -/
noncomputable def f_cm_prop (self : Concrete2023) : Except PyError ℝ :=
  (f_ck_prop self).map get_fcm

/-- Property `E_cm` (source line 237): `self.get_Ecm(self.f_ck)` — the value
passed to `get_Ecm` is `f_ck`, although `get_Ecm` documents its parameter as
the mean strength `f_cm`; `k_E` takes its default 9500. -/
noncomputable def E_cm_prop (self : Concrete2023) : Except PyError ℝ :=
  (f_ck_prop self).map (fun v => get_Ecm v 9500.0)

/-- Property `s_C` (source line 242): `self.get_sC(self.f_ck, self.strength_development_class)`. -/
noncomputable def s_C_prop (self : Concrete2023) : Except PyError ℝ :=
  (f_ck_prop self).bind (fun fck => get_sC fck self.strength_development_class)

/-- Property `t_T` (source line 267): `self.get_t_T(self.age, self.curing_temperature)`
with the default `use_linear_activation_energy=True`. -/
noncomputable def t_T_prop (self : Concrete2023) : Except PyError ℝ :=
  get_t_T self.age self.curing_temperature true

/-- Property `beta_cc_t` (source line 247):
`self.get_betacc_t(self.s_C, self.t_T, self.t_ref)` (with `self.s_C`
evaluated before `self.t_T`, matching Python argument order). -/
noncomputable def beta_cc_t_prop (self : Concrete2023) : Except PyError ℝ :=
  (s_C_prop self).bind (fun s =>
    (t_T_prop self).map (fun tT => get_betacc_t s tT self.t_ref))

/-- Property `f_cm_t` (source line 252): `self.get_fcm_t(self.beta_cc_t, self.f_cm)`. -/
noncomputable def f_cm_t_prop (self : Concrete2023) : Except PyError ℝ :=
  (beta_cc_t_prop self).bind (fun b =>
    (f_cm_prop self).map (fun f => get_fcm_t b f))

/-- Property `E_cm_t` (source line 257): `self.get_Ecm_t(self.beta_cc_t, self.E_cm)`. -/
noncomputable def E_cm_t_prop (self : Concrete2023) : Except PyError ℝ :=
  (beta_cc_t_prop self).bind (fun b =>
    (E_cm_prop self).map (fun e => get_Ecm_t b e))

/-- Property `f_ck_t` (source line 262): `self.get_fck_t(self.f_cm_t)`. -/
noncomputable def f_ck_t_prop (self : Concrete2023) : Except PyError ℝ :=
  (f_cm_t_prop self).map get_fck_t

end Concrete2023

/-- One assignment to a mutable input attribute of a `Concrete2023` object,
as performed by the external visualizer (e.g. `self.concrete.age = ...`). -/
inductive Mutation where
  | setStrengthClass (v : String)
  | setStrengthDevelopmentClass (v : String)
  | setTRef (v : ℝ)
  | setAge (v : ℝ)
  | setCuringTemperature (v : ℝ)

/-- Effect of one attribute assignment on the stored inputs. -/
noncomputable def applyMutation (c : Concrete2023) : Mutation → Concrete2023
  | .setStrengthClass v => { c with strength_class := v }
  | .setStrengthDevelopmentClass v => { c with strength_development_class := v }
  | .setTRef v => { c with t_ref := v }
  | .setAge v => { c with age := v }
  | .setCuringTemperature v => { c with curing_temperature := v }

/-- A mutation history applied in order. -/
noncomputable def applyAll (c : Concrete2023) (ms : List Mutation) : Concrete2023 :=
  ms.foldl applyMutation c

/-- The full tuple of derived read-only properties of a `Concrete2023`
object.  Each component is the embedding of the corresponding `@property`
(source lines 224–267); every property body only reads the five input
attributes and calls static methods — it performs no assignment — so each
read is a pure function of the currently stored inputs. -/
structure Outputs where
  f_ck : Except PyError ℝ
  f_cm : Except PyError ℝ
  E_cm : Except PyError ℝ
  s_C : Except PyError ℝ
  t_T : Except PyError ℝ
  beta_cc_t : Except PyError ℝ
  f_cm_t : Except PyError ℝ
  E_cm_t : Except PyError ℝ
  f_ck_t : Except PyError ℝ

/-- Reading every derived property of the current configuration. -/
noncomputable def readAll (c : Concrete2023) : Outputs :=
  ⟨Concrete2023.f_ck_prop c, Concrete2023.f_cm_prop c, Concrete2023.E_cm_prop c,
   Concrete2023.s_C_prop c, Concrete2023.t_T_prop c, Concrete2023.beta_cc_t_prop c,
   Concrete2023.f_cm_t_prop c, Concrete2023.E_cm_t_prop c, Concrete2023.f_ck_t_prop c⟩

/-! ### Auxiliary numeric lemmas -/

lemma exp_quarter_pow : Real.exp 0.25 ^ (4 : ℕ) = Real.exp 1 := by
  rw [← Real.exp_nat_mul]
  norm_num

lemma exp_quarter_lt : Real.exp 0.25 < 1.2845 := by
  by_contra hc
  push_neg at hc
  have h4 : (1.2845 : ℝ) ^ (4 : ℕ) ≤ Real.exp 0.25 ^ (4 : ℕ) :=
    pow_le_pow_left₀ (by norm_num) hc 4
  rw [exp_quarter_pow] at h4
  have h9 := Real.exp_one_lt_d9
  nlinarith

lemma exp_quarter_gt : 1.2836 < Real.exp 0.25 := by
  by_contra hc
  push_neg at hc
  have h4 : Real.exp 0.25 ^ (4 : ℕ) ≤ (1.2836 : ℝ) ^ (4 : ℕ) :=
    pow_le_pow_left₀ (Real.exp_pos 0.25).le hc 4
  rw [exp_quarter_pow] at h4
  have h9 := Real.exp_one_gt_d9
  nlinarith

lemma exp_neg_quarter_gt : 0.7785 < Real.exp (-0.25) := by
  rw [Real.exp_neg]
  have h := exp_quarter_lt
  have hp := Real.exp_pos 0.25
  have hi : Real.exp 0.25 * (Real.exp 0.25)⁻¹ = 1 := mul_inv_cancel₀ hp.ne'
  nlinarith [inv_pos.mpr hp]

lemma exp_neg_quarter_lt : Real.exp (-0.25) < 0.7791 := by
  rw [Real.exp_neg]
  have h := exp_quarter_gt
  have hp := Real.exp_pos 0.25
  have hi : Real.exp 0.25 * (Real.exp 0.25)⁻¹ = 1 := mul_inv_cancel₀ hp.ne'
  nlinarith [inv_pos.mpr hp]

lemma betacc_2004_quarter_seven :
    Concrete2004.get_betacc_t_spec 0.25 7.0 = Real.exp (-0.25) := by
  unfold Concrete2004.get_betacc_t_spec
  rw [show min (7.0:ℝ) 28.0 = 7.0 by norm_num,
    show (28.0:ℝ) / 7.0 = 4.0 by norm_num]
  have h4 : ((4.0:ℝ)) ^ ((0.5:ℝ)) = 2.0 := by
    rw [show (0.5:ℝ) = 1 / 2 by norm_num, ← Real.sqrt_eq_rpow,
      show (4.0:ℝ) = 2.0 ^ 2 by norm_num]
    exact Real.sqrt_sq (by norm_num)
  rw [h4]
  congr 1
  norm_num

lemma fck_C30_2023 (sdc : String) (tr a T : ℝ) :
    Concrete2023.f_ck_prop ⟨"C30/37", sdc, tr, a, T⟩ = Except.ok 30.0 := rfl

lemma sC_C30_CN (tr a T : ℝ) :
    Concrete2023.s_C_prop ⟨"C30/37", "CN", tr, a, T⟩ = Except.ok 0.5 := by
  unfold Concrete2023.s_C_prop
  rw [fck_C30_2023]
  show Concrete2023.get_sC 30.0 ("CN") = Except.ok 0.5
  unfold Concrete2023.get_sC
  rw [if_pos (by norm_num : (30.0:ℝ) ≤ 35.0)]
  rfl

lemma tT_at20 (sc sdc : String) (tr a : ℝ) :
    Concrete2023.t_T_prop ⟨sc, sdc, tr, a, 20.0⟩ =
      Except.ok (a * Real.exp ((33500.0 + 1470.0 * max (20.0 - 20.0) 0.0) / 8.314 *
        (1.0 / 293.0 - 1.0 / (273.0 + 20.0)))) := by
  unfold Concrete2023.t_T_prop Concrete2023.get_t_T
  rw [if_pos (by norm_num : (0.0:ℝ) < 20.0 ∧ (20.0:ℝ) ≤ 80.0)]
  rfl

/-! ### Claims -/

/-- Claim C1: the spec says the reported modulus of elasticity is
`k_E * f_cm^(1/3)` (2023) resp. `22000*(f_cm/10)^0.3` (2004) with
`f_cm = f_ck + 8`; the code's `E_cm` properties pass `f_ck` to `get_Ecm`
instead, so a 2023 model configured with strength class C30/37 reports
`9500 * 30^(1/3)`, which is strictly below the specified `9500 * 38^(1/3)`
(and likewise for the 2004 variant). -/
theorem c1_modulus_property_receives_fck :
    Concrete2023.E_cm_prop ⟨"C30/37", "CN", 28.0, 28.0, 20.0⟩ =
      Except.ok (9500.0 * (30.0 : ℝ) ^ ((1 : ℝ) / 3)) ∧
    9500.0 * (30.0 : ℝ) ^ ((1 : ℝ) / 3) < 9500.0 * (38.0 : ℝ) ^ ((1 : ℝ) / 3) ∧
    Concrete2004.E_cm_prop ⟨"C30/37", "N", 20.0⟩ =
      Except.ok (22000.0 * ((30.0 : ℝ) / 10.0) ^ (0.3 : ℝ)) ∧
    22000.0 * ((30.0 : ℝ) / 10.0) ^ (0.3 : ℝ) <
      22000.0 * ((38.0 : ℝ) / 10.0) ^ (0.3 : ℝ) := by
  refine ⟨rfl, ?_, rfl, ?_⟩
  · have h := Real.rpow_lt_rpow (by norm_num : (0:ℝ) ≤ 30.0)
      (by norm_num : (30.0:ℝ) < 38.0) (by norm_num : (0:ℝ) < (1:ℝ)/3)
    linarith
  · have h := Real.rpow_lt_rpow (by norm_num : (0:ℝ) ≤ (30.0:ℝ)/10.0)
      (by norm_num : (30.0:ℝ)/10.0 < (38.0:ℝ)/10.0) (by norm_num : (0:ℝ) < (0.3:ℝ))
    linarith

/-- Claim C2: for both variants the age-adjusted characteristic strength is
the age-adjusted mean strength minus 8.0 MPa — at the static-method level and
along the whole 2023 property chain. -/
theorem c2_characteristic_is_mean_minus_eight :
    (∀ x : ℝ, Concrete2004.get_fck_t x = x - 8.0 ∧ Concrete2023.get_fck_t x = x - 8.0) ∧
    ∀ self : Concrete2023, Concrete2023.f_ck_t_prop self =
      Except.map (fun v => v - 8.0) (Concrete2023.f_cm_t_prop self) := by
  refine ⟨fun x => ⟨rfl, rfl⟩, fun self => ?_⟩
  unfold Concrete2023.f_ck_t_prop
  cases Concrete2023.f_cm_t_prop self <;> rfl

/-- Claim C3: the 2023 half holds — at `t = t_ref` the 2023 development
coefficient is exactly 1 and its round-trip returns `f_ck` exactly — but the
2004 method `get_betacc_t` raises `NameError` on every call (undefined
`minimum`/`exp` at lines 127–128), so the 2004 development coefficient never
evaluates to 1.0 and the 2004 round-trip crashes.  The spec's own 2004
formula, embedded from the spec's words, does evaluate to exactly 1 at
28 days with the exact round-trip, confirming the claim's intent. -/
theorem c3_reference_age (s f_ck t_ref : ℝ) (h : 0 < t_ref) :
    Concrete2004.get_betacc_t s 28.0 = Except.error PyError.nameError ∧
    Concrete2023.get_betacc_t s t_ref t_ref = 1 ∧
    Concrete2023.get_fck_t (Concrete2023.get_fcm_t (Concrete2023.get_betacc_t s t_ref t_ref)
      (Concrete2023.get_fcm f_ck)) = f_ck ∧
    Concrete2004.get_betacc_t_spec s 28.0 = 1 ∧
    Concrete2004.get_fck_t (Concrete2004.get_fcm_t (Concrete2004.get_betacc_t_spec s 28.0)
      (Concrete2004.get_fcm f_ck)) = f_ck := by
  have h2004 : Concrete2004.get_betacc_t_spec s 28.0 = 1 := by
    unfold Concrete2004.get_betacc_t_spec
    rw [min_self, show (28.0:ℝ) / 28.0 = 1 by norm_num, Real.one_rpow]
    norm_num [Real.exp_zero]
  have h2023 : Concrete2023.get_betacc_t s t_ref t_ref = 1 := by
    unfold Concrete2023.get_betacc_t
    rw [min_self, div_self h.ne', Real.sqrt_one]
    norm_num [Real.exp_zero]
  refine ⟨rfl, h2023, ?_, h2004, ?_⟩
  · rw [Concrete2023.get_fck_t, Concrete2023.get_fcm_t, h2023, Concrete2023.get_fcm]
    ring
  · rw [Concrete2004.get_fck_t, Concrete2004.get_fcm_t, h2004, Concrete2004.get_fcm]
    ring

/-- Witness for C3 at `s = 0.25`, `f_ck = 30`, `t_ref = 28`. -/
theorem c3_witness :
    Concrete2004.get_betacc_t 0.25 28.0 = Except.error PyError.nameError ∧
    Concrete2023.get_betacc_t 0.25 28.0 28.0 = 1 ∧
    Concrete2023.get_fck_t (Concrete2023.get_fcm_t (Concrete2023.get_betacc_t 0.25 28.0 28.0)
      (Concrete2023.get_fcm 30.0)) = 30.0 ∧
    Concrete2004.get_betacc_t_spec 0.25 28.0 = 1 :=
  ⟨(c3_reference_age 0.25 30.0 28.0 (by norm_num)).1,
   (c3_reference_age 0.25 30.0 28.0 (by norm_num)).2.1,
   (c3_reference_age 0.25 30.0 28.0 (by norm_num)).2.2.1,
   (c3_reference_age 0.25 30.0 28.0 (by norm_num)).2.2.2.1⟩

/-- Claim C4: the 2023 constant-temperature equivalent-age computation fails
with the temperature-range error exactly when the temperature lies outside
`(0, 80]`; in particular 0 fails while 0.001 and 80.0 succeed. -/
theorem c4_temperature_guard (t : ℝ) (u : Bool) :
    (∀ T : ℝ, ¬(0.0 < T ∧ T ≤ 80.0) →
      Concrete2023.get_t_T t T u = Except.error PyError.invalidTemperatureRange) ∧
    (∀ T : ℝ, 0.0 < T → T ≤ 80.0 → ∃ v, Concrete2023.get_t_T t T u = Except.ok v) ∧
    Concrete2023.get_t_T t 0.0 u = Except.error PyError.invalidTemperatureRange ∧
    (∃ v, Concrete2023.get_t_T t 0.001 u = Except.ok v) ∧
    (∃ v, Concrete2023.get_t_T t 80.0 u = Except.ok v) := by
  refine ⟨fun T hT => ?_, fun T h1 h2 => ?_, ?_, ?_, ?_⟩
  · unfold Concrete2023.get_t_T
    rw [if_neg hT]
  · unfold Concrete2023.get_t_T
    rw [if_pos (⟨h1, h2⟩ : (0.0:ℝ) < T ∧ T ≤ 80.0)]
    exact ⟨_, rfl⟩
  · unfold Concrete2023.get_t_T
    rw [if_neg (by norm_num : ¬((0.0:ℝ) < 0.0 ∧ (0.0:ℝ) ≤ 80.0))]
  · unfold Concrete2023.get_t_T
    rw [if_pos (by norm_num : (0.0:ℝ) < 0.001 ∧ (0.001:ℝ) ≤ 80.0)]
    exact ⟨_, rfl⟩
  · unfold Concrete2023.get_t_T
    rw [if_pos (by norm_num : (0.0:ℝ) < 80.0 ∧ (80.0:ℝ) ≤ 80.0)]
    exact ⟨_, rfl⟩

/-- Witness for C4 at `t = 1`: temperature 81 fails, temperature 80 succeeds. -/
theorem c4_witness :
    Concrete2023.get_t_T 1.0 81.0 true = Except.error PyError.invalidTemperatureRange ∧
    ∃ v, Concrete2023.get_t_T 1.0 80.0 true = Except.ok v :=
  ⟨(c4_temperature_guard 1.0 true).1 81.0 (by norm_num),
   (c4_temperature_guard 1.0 true).2.2.2.2⟩

/-- Claim C5 (refuting evaluation): the aging-coefficient chain performs no
age validation — at any non-positive age the 2023 `beta_cc_t` property still
returns a value (`Except.ok`) rather than failing with an age error. -/
theorem c5_no_age_validation (a : ℝ) (ha : a ≤ 0) :
    ∃ v, Concrete2023.beta_cc_t_prop ⟨"C30/37", "CN", 28.0, a, 20.0⟩ = Except.ok v := by
  unfold Concrete2023.beta_cc_t_prop
  rw [sC_C30_CN, tT_at20]
  exact ⟨_, rfl⟩

/-- Witness for C5 at age `-1`. -/
theorem c5_witness :
    ∃ v, Concrete2023.beta_cc_t_prop ⟨"C30/37", "CN", 28.0, -1.0, 20.0⟩ = Except.ok v :=
  c5_no_age_validation (-1.0) (by norm_num)

/-- Claim C6 (evaluation at the failing input): with the linear
activation-energy option enabled (the default), the 2004 variable-temperature
sum evaluates the undefined name `T` and fails, instead of computing the
claimed per-interval sum; with the option disabled it does compute the
constant-energy sum, and the spec-modelled per-interval form yields the
claimed contribution `duration * exp(E_i/R * (1/293 - 1/(273+T_i)))` with
`E_i = 33500 + 1470*max(20 - T_i, 0)`. -/
theorem c6_per_interval_activation_energy :
    Concrete2004.get_t_T [1.0] [10.0] true = Except.error PyError.nameError ∧
    Concrete2004.get_t_T [1.0] [10.0] false =
      Except.ok (1.0 * Real.exp (33500.0 / 8.314 * (1.0 / 293.0 - 1.0 / (273.0 + 10.0)))) ∧
    Concrete2004.get_t_T_perInterval [1.0] [10.0] true =
      Except.ok (1.0 * Real.exp ((33500.0 + 1470.0 * max (20.0 - 10.0) 0.0) / 8.314 *
        (1.0 / 293.0 - 1.0 / (273.0 + 10.0)))) := by
  have hguard : ¬((∃ x ∈ ([10.0] : List ℝ), x ≤ 0.0) ∨ (∃ x ∈ ([10.0] : List ℝ), 80.0 < x)) := by
    norm_num
  refine ⟨?_, ?_, ?_⟩
  · unfold Concrete2004.get_t_T
    rw [if_neg hguard]
    rfl
  · unfold Concrete2004.get_t_T
    rw [if_neg hguard]
    show Except.ok _ = _
    rw [show ((([1.0] : List ℝ).zip ([10.0] : List ℝ)).map (fun p =>
      p.1 * Real.exp (33500.0 / 8.314 * (1.0 / 293.0 - 1.0 / (273.0 + p.2))))).sum =
      1.0 * Real.exp (33500.0 / 8.314 * (1.0 / 293.0 - 1.0 / (273.0 + 10.0))) + 0 by rfl]
    rw [add_zero]
  · unfold Concrete2004.get_t_T_perInterval
    rw [if_neg hguard]
    show Except.ok _ = _
    rw [show ((([1.0] : List ℝ).zip ([10.0] : List ℝ)).map (fun p =>
      p.1 * Real.exp ((33500.0 + (if true then 1470.0 * max (20.0 - p.2) 0.0 else 0.0)) /
        8.314 * (1.0 / 293.0 - 1.0 / (273.0 + p.2))))).sum =
      (1.0 * Real.exp ((33500.0 + 1470.0 * max (20.0 - 10.0) 0.0) / 8.314 *
        (1.0 / 293.0 - 1.0 / (273.0 + 10.0)))) + 0 by rfl]
    rw [add_zero]

/-- Claim C7: the table `S_DICT` does map cement class N to 0.25, but the
accessor `get_s` and the method `get_betacc_t` both raise `NameError` on
every call (`self` inside a `@staticmethod` at line 169; undefined
`minimum`/`exp` at lines 127–128), so the program never produces the
scenario values.  The spec's 2004 formula, embedded from the spec's words,
does yield exactly `exp(-0.25)` at 7 days (in `(0.7785, 0.7791)`, ≈ 0.7788),
age-adjusted mean strength `exp(-0.25)*38.0` (in `(29.58, 29.61)`, ≈ 29.6),
and age-adjusted characteristic strength `exp(-0.25)*38.0 - 8.0`
(in `(21.58, 21.61)`, ≈ 21.6), confirming the claim's arithmetic as the
evident intent. -/
theorem c7_scenario_2004_class_N :
    Concrete2004.S_DICT ("N") = some 0.25 ∧
    Concrete2004.get_s ("N") = Except.error PyError.nameError ∧
    Concrete2004.get_betacc_t 0.25 7.0 = Except.error PyError.nameError ∧
    Concrete2004.get_betacc_t_spec 0.25 7.0 = Real.exp (-0.25) ∧
    0.7785 < Concrete2004.get_betacc_t_spec 0.25 7.0 ∧
    Concrete2004.get_betacc_t_spec 0.25 7.0 < 0.7791 ∧
    Concrete2004.get_fcm_t (Concrete2004.get_betacc_t_spec 0.25 7.0) 38.0 =
      Real.exp (-0.25) * 38.0 ∧
    29.58 < Concrete2004.get_fcm_t (Concrete2004.get_betacc_t_spec 0.25 7.0) 38.0 ∧
    Concrete2004.get_fcm_t (Concrete2004.get_betacc_t_spec 0.25 7.0) 38.0 < 29.61 ∧
    Concrete2004.get_fck_t
      (Concrete2004.get_fcm_t (Concrete2004.get_betacc_t_spec 0.25 7.0) 38.0) =
      Real.exp (-0.25) * 38.0 - 8.0 ∧
    21.58 < Concrete2004.get_fck_t
      (Concrete2004.get_fcm_t (Concrete2004.get_betacc_t_spec 0.25 7.0) 38.0) ∧
    Concrete2004.get_fck_t
      (Concrete2004.get_fcm_t (Concrete2004.get_betacc_t_spec 0.25 7.0) 38.0) < 21.61 := by
  have hb := betacc_2004_quarter_seven
  have hgt := exp_neg_quarter_gt
  have hlt := exp_neg_quarter_lt
  refine ⟨rfl, rfl, rfl, hb, ?_, ?_, ?_, ?_, ?_, ?_, ?_, ?_⟩
  · rw [hb]; exact hgt
  · rw [hb]; exact hlt
  · rw [Concrete2004.get_fcm_t, hb]
  · rw [Concrete2004.get_fcm_t, hb]; linarith
  · rw [Concrete2004.get_fcm_t, hb]; linarith
  · rw [Concrete2004.get_fck_t, Concrete2004.get_fcm_t, hb]
  · rw [Concrete2004.get_fck_t, Concrete2004.get_fcm_t, hb]; linarith
  · rw [Concrete2004.get_fck_t, Concrete2004.get_fcm_t, hb]; linarith

/-- Claim C8 (refinement): the 2023 development-coefficient code, evaluated
with `t_ref = 28`, coincides with the spec's 2004 formula
(`Concrete2004.get_betacc_t_spec`, the spec-worded side of the comparison;
the 2004 source method itself raises `NameError` on every call) at every
coefficient `s` and positive age `t`. -/
theorem c8_2023_generalizes_2004 (s t : ℝ) (ht : 0 < t) :
    Concrete2023.get_betacc_t s t 28.0 = Concrete2004.get_betacc_t_spec s t := by
  unfold Concrete2023.get_betacc_t Concrete2004.get_betacc_t_spec
  have h1 : Real.sqrt ((28.0:ℝ) / 28.0) = 1 := by
    rw [show (28.0:ℝ) / 28.0 = 1 by norm_num]
    exact Real.sqrt_one
  rw [h1, mul_one, Real.sqrt_eq_rpow]
  norm_num

/-- Witness for C8 at `s = 0.25`, `t = 7`. -/
theorem c8_witness :
    Concrete2023.get_betacc_t 0.25 7.0 28.0 = Concrete2004.get_betacc_t_spec 0.25 7.0 :=
  c8_2023_generalizes_2004 0.25 7.0 (by norm_num)

/-- Claim C9: every derived-property read is a pure function of the five
currently stored inputs (the property bodies perform no assignment and the
class caches nothing), so two models whose current inputs coincide read
equal values for every derived property, regardless of the mutation
histories that produced those inputs. -/
theorem c9_reads_pure_in_current_inputs (init1 init2 : Concrete2023)
    (ms1 ms2 : List Mutation) (h : applyAll init1 ms1 = applyAll init2 ms2) :
    readAll (applyAll init1 ms1) = readAll (applyAll init2 ms2) := by
  rw [h]

/-- Witness for C9: setting `age` to 7 on the default model reads the same as
a model constructed with `age = 7` directly. -/
theorem c9_witness :
    readAll (applyAll ⟨"C30/37", "CN", 28.0, 28.0, 20.0⟩ [Mutation.setAge 7.0]) =
      readAll (applyAll ⟨"C30/37", "CN", 28.0, 7.0, 20.0⟩ []) :=
  c9_reads_pure_in_current_inputs _ _ _ _ rfl

/-- Claim C10: at the 20 °C reference temperature the 2023 constant-
temperature equivalent age equals the actual age, for every positive age and
either setting of the linear activation-energy option. -/
theorem c10_twenty_degrees_identity (t : ℝ) (ht : 0 < t) (u : Bool) :
    Concrete2023.get_t_T t 20.0 u = Except.ok t := by
  unfold Concrete2023.get_t_T
  rw [if_pos (by norm_num : (0.0:ℝ) < 20.0 ∧ (20.0:ℝ) ≤ 80.0)]
  rw [show (1.0 / 293.0 - 1.0 / (273.0 + 20.0) : ℝ) = 0 by norm_num]
  rw [mul_zero, Real.exp_zero, mul_one]

/-- Witness for C10 at `t = 7` with the default option. -/
theorem c10_witness : Concrete2023.get_t_T 7.0 20.0 true = Except.ok 7.0 :=
  c10_twenty_degrees_identity 7.0 (by norm_num) true
